import Mathlib

/-
  Verification of the kafeido-sdk core subsystems, shallowly embedded in Lean.

  Embedded modules (translated from the Python source):
  * src/kafeido/_warmup.py            — warmup / wait-for-ready polling
  * src/kafeido/_streaming.py         — SSE event-stream decoding
  * src/kafeido/_streaming_transcription.py — WebSocket transcription sessions
  * src/kafeido/_http_client.py       — HTTP request retry loop

  Modelling conventions:
  * Wall-clock quantities (poll intervals, timeouts, backoff delays) are exact
    rationals; status checks and HTTP attempts are modelled as instantaneous,
    so elapsed time is the sum of the sleeps performed so far.
  * External collaborators (json.loads, pydantic model_validate, the remote
    endpoints, the websocket) are abstracted as function parameters; the
    control flow around them is translated statement by statement.
  * Loops carry an explicit fuel argument so every definition is total; the
    theorems supply enough fuel for the executions they describe.
-/

namespace Kafeido

/-! ## Warmup data model (src/kafeido/types/models.py) -/

/-- ColdStartProgress (models.py): progress payload; never consulted by the
warmup logic, carried for fidelity of the record shape. -/
structure ColdStartProgress where
  stage : Option String
  progress : Option ℚ
  estimated_seconds : Option ℚ
  deriving Repr, DecidableEq

/-- ModelStatusInfo (models.py): detailed model status, `status` is the
free-form status string compared against the healthy sentinel. -/
structure ModelStatusInfo where
  status : Option String
  usage_percent : Option ℚ
  cold_start_progress : Option ColdStartProgress
  deriving Repr, DecidableEq

/-- ModelStatus (models.py): response of the model status endpoint. -/
structure ModelStatus where
  model_id : String
  status : Option ModelStatusInfo
  deriving Repr, DecidableEq

/-- WarmupResponse (models.py): response of the warmup endpoint. -/
structure WarmupResponse where
  already_warm : Bool
  estimated_seconds : Option ℚ
  deriving Repr, DecidableEq

/-- HEALTHY_STATUS constant of _warmup.py. -/
def HEALTHY_STATUS : String := "healthy"

/-- The readiness test of _warmup.py line 104:
`status.status and status.status.status == HEALTHY_STATUS`.
A missing inner status object is falsy, so it polls again; an inner object
whose `status` string is absent compares unequal to the sentinel. -/
def statusIsHealthy (s : ModelStatus) : Bool :=
  match s.status with
  | none => false
  | some info => info.status = some HEALTHY_STATUS

/-! ## Warmup orchestration (src/kafeido/_warmup.py) -/

/-- Observable actions of one `wait_for_ready` call: the single warmup
trigger, each status check, and each sleep of the poll interval. -/
inductive WarmupEvent where
  | trigger (model : String)
  | statusCheck (model : String)
  | sleepFor (seconds : ℚ)
  deriving Repr, DecidableEq

/-- Result of `wait_for_ready`: normal return, or the raised
WarmupTimeoutError carrying the model and the elapsed wait. -/
inductive WarmupOutcome where
  | ready
  | timeout (model : String) (waited_seconds : ℚ)
  deriving Repr, DecidableEq

/-- Number of trigger (warmup_fn) invocations recorded in a trace. -/
def countTriggers : List WarmupEvent → Nat
  | [] => 0
  | WarmupEvent.trigger _ :: es => countTriggers es + 1
  | _ :: es => countTriggers es

/-- Number of status_fn invocations recorded in a trace. -/
def countChecks : List WarmupEvent → Nat
  | [] => 0
  | WarmupEvent.statusCheck _ :: es => countChecks es + 1
  | _ :: es => countChecks es

/-- Number of sleeps recorded in a trace. -/
def countSleeps : List WarmupEvent → Nat
  | [] => 0
  | WarmupEvent.sleepFor _ :: es => countSleeps es + 1
  | _ :: es => countSleeps es

/-- The `while True` polling loop of `WarmupHelper.wait_for_ready`
(_warmup.py lines 95-108) and of its async twin (lines 168-181); the two
differ only in how the sleep suspends. `statusAt k` is the value the k-th
`status_fn` call returns. With checks instantaneous, the elapsed time at
iteration `k` is `k * interval`. The deadline test `elapsed >= max_wait`
comes before the status check, exactly as in the source. `fuel` bounds the
iteration count; exhausted fuel yields outcome `none`. -/
def pollLoop (model : String) (statusAt : Nat → ModelStatus)
    (interval maxWait : ℚ) : Nat → Nat → List WarmupEvent × Option WarmupOutcome
  | 0, _ => ([], none)
  | fuel + 1, k =>
    if maxWait ≤ (k : ℚ) * interval then
      ([], some (WarmupOutcome.timeout model ((k : ℚ) * interval)))
    else if statusIsHealthy (statusAt k) then
      ([WarmupEvent.statusCheck model], some WarmupOutcome.ready)
    else
      let rest := pollLoop model statusAt interval maxWait fuel (k + 1)
      (WarmupEvent.statusCheck model :: WarmupEvent.sleepFor interval :: rest.1,
        rest.2)

/-- Translation of `WarmupHelper.wait_for_ready` (_warmup.py lines 65-108) and
`AsyncWarmupHelper.wait_for_ready` (lines 138-181): resolve the effective
deadline (per-call `timeout` if given, else the configured `max_wait_time`),
invoke the warmup trigger once, return at once when already warm, otherwise
poll. `alreadyWarm` is the `already_warm` field of the trigger's response. -/
def wait_for_ready (model : String) (alreadyWarm : Bool)
    (statusAt : Nat → ModelStatus) (interval maxWaitTime : ℚ)
    (timeout : Option ℚ) (fuel : Nat) :
    List WarmupEvent × Option WarmupOutcome :=
  let maxWait := timeout.getD maxWaitTime
  if alreadyWarm then
    ([WarmupEvent.trigger model], some WarmupOutcome.ready)
  else
    let rest := pollLoop model statusAt interval maxWait fuel 0
    (WarmupEvent.trigger model :: rest.1, rest.2)

/-- The event trace of a poll loop that checks n+1 times and sleeps n times
before succeeding. -/
def pollSuccessEvents (model : String) (interval : ℚ) : Nat → List WarmupEvent
  | 0 => [WarmupEvent.statusCheck model]
  | n + 1 =>
    WarmupEvent.statusCheck model :: WarmupEvent.sleepFor interval ::
      pollSuccessEvents model interval n

/-- The event trace of a poll loop that checks and sleeps n times and then
hits the deadline. -/
def pollTimeoutEvents (model : String) (interval : ℚ) : Nat → List WarmupEvent
  | 0 => []
  | n + 1 =>
    WarmupEvent.statusCheck model :: WarmupEvent.sleepFor interval ::
      pollTimeoutEvents model interval n

/-! ## SSE event-stream decoding (src/kafeido/_streaming.py) -/

/-- Python `str.strip` whitespace set (the line 45 `chunk.strip()` call):
space, tab, newline, carriage return, vertical tab, form feed. -/
def isPySpace (c : Char) : Bool :=
  c = ' ' || c = '\t' || c = '\n' || c = '\r' || c = '\x0b' || c = '\x0c'

/-- Python `str.strip()`: drop leading and trailing whitespace. -/
def pyStrip (s : String) : String :=
  String.mk (((s.data.dropWhile isPySpace).reverse.dropWhile isPySpace).reverse)

/-- The SSE framing marker of _streaming.py line 50. -/
def sseMarker : String := "data: "

/-- The stream-terminating sentinel payload of _streaming.py line 54. -/
def doneSentinel : String := "[DONE]"

/-- Translation of `Stream._stream` (_streaming.py lines 35-75) and `AsyncStream._stream`
(lines 112-145), which share the framing logic: strip each line, skip empty
lines and lines without the `data: ` marker, stop at the `[DONE]` sentinel,
otherwise JSON-parse the payload and coerce it to the target shape, skipping
the line when either step fails. `parse` abstracts `json.loads` (`none` is a
JSONDecodeError) and `coerce` abstracts `cast_to.model_validate` (`none` is
a validation error); for a `cast_to` without `model_validate` the source
yields the parsed value unchanged, which is `coerce := some`. -/
def sseEvents {J T : Type} (parse : String → Option J) (coerce : J → Option T) :
    List String → List T
  | [] => []
  | chunk :: rest =>
    let line := pyStrip chunk
    if line = "" then sseEvents parse coerce rest
    else if sseMarker.isPrefixOf line then
      let data := line.drop sseMarker.length
      if data = doneSentinel then []
      else
        match parse data with
        | none => sseEvents parse coerce rest
        | some j =>
          match coerce j with
          | none => sseEvents parse coerce rest
          | some t => t :: sseEvents parse coerce rest
    else sseEvents parse coerce rest

/-- The payload of a line that bears the `data: ` marker after stripping,
and `none` for every other line. Written from the spec's framing description
to compare against `sseEvents`. -/
def dataPayload (chunk : String) : Option String :=
  let line := pyStrip chunk
  if sseMarker.isPrefixOf line then some (line.drop sseMarker.length) else none

/-- The spec's description of the decoder output: the payloads of marked
lines that precede the first `[DONE]` sentinel, JSON-parsed and coerced,
in arrival order, dropping the failures. Written from the spec's words
to compare against `sseEvents`. -/
def sseEventsSpec {J T : Type} (parse : String → Option J)
    (coerce : J → Option T) (lines : List String) : List T :=
  (((lines.filterMap dataPayload).takeWhile fun d => d ≠ doneSentinel).filterMap
    fun d => (parse d).bind coerce)

/-- The observable state of a `Stream` object (_streaming.py lines 11-33):
the underlying response's line stream and the cached `_iterator`, `none`
before the first `__iter__`/`__next__` call and otherwise the remaining
yields of the single `_stream()` generator. -/
structure StreamObj (T : Type) where
  lines : List String
  it : Option (List T)

/-- The generator backing a stream state: the cached one if it exists,
otherwise the freshly created `self._stream()` (lines 26-27 and 31-32). -/
def streamRemaining {J T : Type} (parse : String → Option J)
    (coerce : J → Option T) (s : StreamObj T) : List T :=
  match s.it with
  | some xs => xs
  | none => sseEvents parse coerce s.lines

/-- Translation of `Stream.__next__` (lines 30-33): materialize the cached iterator if
needed, then take its next element; `none` is a StopIteration. -/
def streamNext {J T : Type} (parse : String → Option J)
    (coerce : J → Option T) (s : StreamObj T) : Option T × StreamObj T :=
  match streamRemaining parse coerce s with
  | [] => (none, { s with it := some [] })
  | x :: xs => (some x, { s with it := some xs })

/-- Iterating a stream object: up to `n` `__next__` calls, collecting the
yielded values; iteration stops at the first StopIteration, and any calls
after it keep raising StopIteration and contribute nothing. -/
def streamNexts {J T : Type} (parse : String → Option J)
    (coerce : J → Option T) : Nat → StreamObj T → List T
  | 0, _ => []
  | n + 1, s =>
    match streamNext parse coerce s with
    | (none, _) => []
    | (some x, s') => x :: streamNexts parse coerce n s'

/-! ## WebSocket streaming transcription (src/kafeido/_streaming_transcription.py) -/

/-- A frame on the WebSocket wire: a text frame or a binary frame. -/
inductive WSFrame where
  | text (payload : String)
  | binary (payload : List Nat)
  deriving Repr, DecidableEq

/-- The wire-visible state of a synchronous `StreamingTranscription`: the
frames it has transmitted, in order. -/
structure SyncSession where
  sent : List WSFrame
  deriving Repr, DecidableEq

/-- Translation of `StreamingTranscription.__init__` (lines 42-51): connect, then send the
JSON-encoded config as the first text frame before returning to the caller.
`configJson` stands for `json.dumps(config)`. -/
def SyncSession.init (configJson : String) : SyncSession :=
  { sent := [WSFrame.text configJson] }

/-- Translation of `StreamingTranscription.send` (lines 53-55): transmit one binary frame
of raw samples. -/
def SyncSession.sendChunk (s : SyncSession) (pcm : List Nat) : SyncSession :=
  { sent := s.sent ++ [WSFrame.binary pcm] }

/-- A sequence of `send(audio)` calls against a synchronous session. -/
def SyncSession.run (s : SyncSession) (chunks : List (List Nat)) : SyncSession :=
  chunks.foldl SyncSession.sendChunk s

/-- The state of an `AsyncStreamingTranscription` (lines 102-112): the
constructor only stores the config; `_send_config` and `send` each transmit
one frame when the caller invokes them. -/
structure AsyncSession where
  configJson : String
  sent : List WSFrame
  deriving Repr, DecidableEq

/-- Translation of `AsyncStreamingTranscription.__init__` (lines 102-104): store the
websocket and the config; nothing is transmitted. -/
def AsyncSession.init (configJson : String) : AsyncSession :=
  { configJson := configJson, sent := [] }

/-- The frame-writing operations a caller of the async session may invoke,
in the order of its choosing: `_send_config` (lines 106-108) and
`send` (lines 110-112). -/
inductive AsyncOp where
  | sendConfig
  | sendChunk (pcm : List Nat)
  deriving Repr, DecidableEq

/-- Effect of one caller-invoked operation on the async session. -/
def AsyncSession.step (s : AsyncSession) : AsyncOp → AsyncSession
  | AsyncOp.sendConfig => { s with sent := s.sent ++ [WSFrame.text s.configJson] }
  | AsyncOp.sendChunk pcm => { s with sent := s.sent ++ [WSFrame.binary pcm] }

/-- A sequence of caller-invoked operations against an async session. -/
def AsyncSession.run (s : AsyncSession) (ops : List AsyncOp) : AsyncSession :=
  ops.foldl AsyncSession.step s

/-- The frame one async operation puts on the wire. -/
def AsyncOp.frameOf (configJson : String) : AsyncOp → WSFrame
  | AsyncOp.sendConfig => WSFrame.text configJson
  | AsyncOp.sendChunk pcm => WSFrame.binary pcm

/-! ## Receiving transcription frames -/

/-- A JSON object parsed from an inbound text frame, as the association
list of its fields; the claims concern the `error` field, whose value is
the server-provided message string. -/
def JObj : Type := List (String × String)

/-- The exceptions `recv` can raise and the iterator swallow: the APIError
built from an `error` field, a json.loads failure, a model_validate
failure, and the websocket raising because the connection is gone. -/
inductive RecvError where
  | apiErr (message : String)
  | jsonDecodeErr
  | validationErr
  | connectionClosed
  deriving Repr, DecidableEq

/-- Translation of `StreamingTranscription.recv` (lines 57-67) and its async twin
(lines 114-124): take the next inbound text frame, `json.loads` it, raise
`APIError(message=data["error"])` when an `error` field is present, and
otherwise coerce the object into a `StreamingTranscriptionResponse`.
`jparse` abstracts `json.loads`; `validate` abstracts
`StreamingTranscriptionResponse.model_validate`; the incoming frames are
the raw texts the websocket will deliver, exhaustion of which models the
connection closing. Returns the frame and the remaining inbound frames. -/
def recv {F : Type} (jparse : String → Option JObj) (validate : JObj → Option F) :
    List String → Except RecvError (F × List String)
  | [] => Except.error RecvError.connectionClosed
  | raw :: rest =>
    match jparse raw with
    | none => Except.error RecvError.jsonDecodeErr
    | some data =>
      match List.lookup ("error") data with
      | some msg => Except.error (RecvError.apiErr msg)
      | none =>
        match validate data with
        | some frame => Except.ok (frame, rest)
        | none => Except.error RecvError.validationErr

/-- Translation of `StreamingTranscription.__iter__` (lines 69-76) and
`AsyncStreamingTranscription.__aiter__` (lines 126-132): yield `recv()`
results until any exception, which the `except Exception: return` clause
turns into a silent end of iteration, so the consumer observes only the
list of yielded frames and never a failure. -/
def iterFrames {F : Type} (jparse : String → Option JObj)
    (validate : JObj → Option F) : List String → List F
  | [] => []
  | raw :: rest =>
    match jparse raw with
    | none => []
    | some data =>
      match List.lookup ("error") data with
      | some _ => []
      | none =>
        match validate data with
        | none => []
        | some f => f :: iterFrames jparse validate rest

/-! ## HTTP client retry loop (src/kafeido/_http_client.py) -/

/-- Outcome of one underlying `httpx` request attempt: a 2xx response, a
timeout (`httpx.TimeoutException`), a connection failure
(`httpx.ConnectError`), or a response with a non-2xx status code. -/
inductive AttemptOutcome where
  | success
  | httpTimeout
  | connectFailure
  | badStatus (code : Nat)
  deriving Repr, DecidableEq

/-- What `HTTPClient.request` surfaces to its caller: the successful
response, the `APITimeoutError` / `APIConnectionError` raised after the
retry budget is spent, or the `APIStatusError` built by
`error_from_response` for a non-2xx response. -/
inductive RequestResult where
  | ok
  | apiTimeoutErr
  | apiConnectionErr
  | apiStatusErr (code : Nat)
  deriving Repr, DecidableEq

/-- The attempt outcomes the retry loop retries: timeouts and connection
failures only. -/
def isRetryable : AttemptOutcome → Bool
  | AttemptOutcome.httpTimeout => true
  | AttemptOutcome.connectFailure => true
  | _ => false

/-- The error surfaced when the final allowed attempt ends with the given
outcome. -/
def surfacedOf : AttemptOutcome → RequestResult
  | AttemptOutcome.success => RequestResult.ok
  | AttemptOutcome.httpTimeout => RequestResult.apiTimeoutErr
  | AttemptOutcome.connectFailure => RequestResult.apiConnectionErr
  | AttemptOutcome.badStatus code => RequestResult.apiStatusErr code

/-- The `for attempt in range(self.max_retries + 1)` retry loop of
`HTTPClient.request` (_http_client.py lines 100-152) and of
`AsyncHTTPClient.request` (lines 288-338), starting at attempt index
`attempt`: a 2xx response returns; a non-2xx response raises the
`error_from_response` error, which none of the except clauses catch, so it
propagates unretried; a timeout or connection failure sleeps `2 ** attempt`
seconds and retries while `attempt < max_retries`, and is surfaced on the
last allowed attempt. `att i` is the outcome of the i-th attempt; the first
component collects the backoff sleep durations in seconds. `fuel` bounds
the loop; the entry point supplies `max_retries + 1`, making the fuel-0
fallback (the unreachable trailing raise of line 152) dead. -/
def requestFrom (att : Nat → AttemptOutcome) (maxRetries : Nat) :
    Nat → Nat → List ℚ × RequestResult
  | _, 0 => ([], RequestResult.apiConnectionErr)
  | attempt, fuel + 1 =>
    match att attempt with
    | AttemptOutcome.success => ([], RequestResult.ok)
    | AttemptOutcome.badStatus code => ([], RequestResult.apiStatusErr code)
    | AttemptOutcome.httpTimeout =>
      if attempt < maxRetries then
        let rest := requestFrom att maxRetries (attempt + 1) fuel
        (((2 : ℚ) ^ attempt) :: rest.1, rest.2)
      else ([], RequestResult.apiTimeoutErr)
    | AttemptOutcome.connectFailure =>
      if attempt < maxRetries then
        let rest := requestFrom att maxRetries (attempt + 1) fuel
        (((2 : ℚ) ^ attempt) :: rest.1, rest.2)
      else ([], RequestResult.apiConnectionErr)

/-- Translation of `HTTPClient.request` and `AsyncHTTPClient.request`: run the retry loop
from attempt 0 with its full budget of `max_retries + 1` attempts. -/
def HTTPClient.request (att : Nat → AttemptOutcome) (maxRetries : Nat) :
    List ℚ × RequestResult :=
  requestFrom att maxRetries 0 (maxRetries + 1)

/-! ## Concrete status functions used by witnesses and counterexamples -/

/-- A status endpoint that always reports a loading, never-healthy model. -/
def alwaysLoading : Nat → ModelStatus := fun _ =>
  ⟨"demo-model", some ⟨some ("loading"), none, none⟩⟩

/-- A status endpoint that reports loading twice and healthy from the
third check on. -/
def loadingThenHealthy : Nat → ModelStatus := fun k =>
  if k < 2 then ⟨"demo-model", some ⟨some ("loading"), none, none⟩⟩
  else ⟨"demo-model", some ⟨some HEALTHY_STATUS, none, none⟩⟩

/-! ## Warmup lemmas -/

/-- The polling loop never invokes the warmup trigger. -/
theorem countTriggers_pollLoop (model : String) (statusAt : Nat → ModelStatus)
    (interval maxWait : ℚ) :
    ∀ fuel k, countTriggers (pollLoop model statusAt interval maxWait fuel k).1 = 0 := by
  intro fuel
  induction fuel with
  | zero => intro k; simp [pollLoop, countTriggers]
  | succ f ih =>
    intro k
    simp only [pollLoop]
    split
    · simp [countTriggers]
    · split
      · simp [countTriggers]
      · simp [countTriggers, ih]

/-- Trace of a run of the polling loop that sees `n` unhealthy statuses,
then a healthy one, while every deadline check still passes. -/
theorem pollLoop_success (model : String) (statusAt : Nat → ModelStatus)
    (interval maxWait : ℚ) :
    ∀ (n k fuel : Nat), n < fuel →
      (∀ j, j < n → statusIsHealthy (statusAt (k + j)) = false) →
      statusIsHealthy (statusAt (k + n)) = true →
      (∀ j, j ≤ n → ((k + j : Nat) : ℚ) * interval < maxWait) →
      pollLoop model statusAt interval maxWait fuel k
        = (pollSuccessEvents model interval n, some WarmupOutcome.ready) := by
  intro n
  induction n with
  | zero =>
    intro k fuel hfuel _ hh hT
    obtain ⟨f, rfl⟩ : ∃ f, fuel = f + 1 := ⟨fuel - 1, by omega⟩
    have hT0 := hT 0 (le_refl 0)
    simp only [Nat.add_zero] at hh hT0
    simp [pollLoop, not_le.mpr hT0, hh, pollSuccessEvents]
  | succ n ih =>
    intro k fuel hfuel hnh hh hT
    obtain ⟨f, rfl⟩ : ∃ f, fuel = f + 1 := ⟨fuel - 1, by omega⟩
    have hT0 := hT 0 (Nat.zero_le _)
    simp only [Nat.add_zero] at hT0
    have hk0 : statusIsHealthy (statusAt k) = false := by
      have h := hnh 0 (Nat.succ_pos n)
      simpa using h
    have hh' : statusIsHealthy (statusAt (k + 1 + n)) = true := by
      have : k + 1 + n = k + (n + 1) := by omega
      rw [this]; exact hh
    have hnh' : ∀ j, j < n → statusIsHealthy (statusAt (k + 1 + j)) = false := by
      intro j hj
      have h := hnh (j + 1) (by omega)
      have e : k + (j + 1) = k + 1 + j := by omega
      rw [e] at h; exact h
    have hT' : ∀ j, j ≤ n → ((k + 1 + j : Nat) : ℚ) * interval < maxWait := by
      intro j hj
      have h := hT (j + 1) (by omega)
      have e : k + (j + 1) = k + 1 + j := by omega
      rw [e] at h; exact h
    have hrec := ih (k + 1) f (by omega) hnh' hh' hT'
    simp [pollLoop, not_le.mpr hT0, hk0, hrec, pollSuccessEvents]

/-- Trace of a run of the polling loop that never sees a healthy status and
whose deadline check first fails at iteration `k + n`. -/
theorem pollLoop_timeout (model : String) (statusAt : Nat → ModelStatus)
    (interval maxWait : ℚ)
    (hH : ∀ k, statusIsHealthy (statusAt k) = false) :
    ∀ (n k fuel : Nat), n < fuel →
      (∀ j, j < n → ((k + j : Nat) : ℚ) * interval < maxWait) →
      maxWait ≤ ((k + n : Nat) : ℚ) * interval →
      pollLoop model statusAt interval maxWait fuel k
        = (pollTimeoutEvents model interval n,
            some (WarmupOutcome.timeout model (((k + n : Nat) : ℚ) * interval))) := by
  intro n
  induction n with
  | zero =>
    intro k fuel hfuel _ hd
    obtain ⟨f, rfl⟩ : ∃ f, fuel = f + 1 := ⟨fuel - 1, by omega⟩
    simp only [Nat.add_zero] at hd
    simp [pollLoop, hd, pollTimeoutEvents]
  | succ n ih =>
    intro k fuel hfuel hok hd
    obtain ⟨f, rfl⟩ : ∃ f, fuel = f + 1 := ⟨fuel - 1, by omega⟩
    have hT0 := hok 0 (Nat.succ_pos n)
    simp only [Nat.add_zero] at hT0
    have hok' : ∀ j, j < n → ((k + 1 + j : Nat) : ℚ) * interval < maxWait := by
      intro j hj
      have h := hok (j + 1) (by omega)
      have e : k + (j + 1) = k + 1 + j := by omega
      rw [e] at h; exact h
    have hd' : maxWait ≤ ((k + 1 + n : Nat) : ℚ) * interval := by
      have e : k + 1 + n = k + (n + 1) := by omega
      rw [e]; exact hd
    have hrec := ih (k + 1) f (by omega) hok' hd'
    have e2 : k + 1 + n = k + (n + 1) := by omega
    rw [e2] at hrec
    simp [pollLoop, not_le.mpr hT0, hH k, hrec, pollTimeoutEvents]

/-- Status-check count of the successful-poll trace. -/
theorem countChecks_pollSuccessEvents (model : String) (interval : ℚ) :
    ∀ n, countChecks (pollSuccessEvents model interval n) = n + 1 := by
  intro n
  induction n with
  | zero => simp [pollSuccessEvents, countChecks]
  | succ n ih => simp [pollSuccessEvents, countChecks, ih]

/-- Sleep count of the successful-poll trace. -/
theorem countSleeps_pollSuccessEvents (model : String) (interval : ℚ) :
    ∀ n, countSleeps (pollSuccessEvents model interval n) = n := by
  intro n
  induction n with
  | zero => simp [pollSuccessEvents, countSleeps]
  | succ n ih => simp [pollSuccessEvents, countSleeps, ih]

/-- Status-check count of the timed-out-poll trace. -/
theorem countChecks_pollTimeoutEvents (model : String) (interval : ℚ) :
    ∀ n, countChecks (pollTimeoutEvents model interval n) = n := by
  intro n
  induction n with
  | zero => simp [pollTimeoutEvents, countChecks]
  | succ n ih => simp [pollTimeoutEvents, countChecks, ih]

/-- Sleep count of the timed-out-poll trace. -/
theorem countSleeps_pollTimeoutEvents (model : String) (interval : ℚ) :
    ∀ n, countSleeps (pollTimeoutEvents model interval n) = n := by
  intro n
  induction n with
  | zero => simp [pollTimeoutEvents, countSleeps]
  | succ n ih => simp [pollTimeoutEvents, countSleeps, ih]

/-- C2: every `wait_for_ready` call invokes the warmup trigger exactly once,
whatever the model's health turns out to be, and whenever the trigger
reports `already_warm = true` the call returns success at once with zero
status-check invocations. -/
theorem warmup_trigger_once (model : String) (alreadyWarm : Bool)
    (statusAt : Nat → ModelStatus) (interval maxWaitTime : ℚ)
    (timeout : Option ℚ) (fuel : Nat) :
    countTriggers
        (wait_for_ready model alreadyWarm statusAt interval maxWaitTime timeout fuel).1 = 1
    ∧ (alreadyWarm = true →
        wait_for_ready model alreadyWarm statusAt interval maxWaitTime timeout fuel
          = ([WarmupEvent.trigger model], some WarmupOutcome.ready)
        ∧ countChecks
            (wait_for_ready model alreadyWarm statusAt interval maxWaitTime timeout fuel).1
            = 0) := by
  cases alreadyWarm with
  | true => exact ⟨by simp [wait_for_ready, countTriggers],
      fun _ => ⟨by simp [wait_for_ready], by simp [wait_for_ready, countChecks]⟩⟩
  | false =>
    refine ⟨?_, by simp⟩
    simp [wait_for_ready, countTriggers, countTriggers_pollLoop]

/-- C2 witness: with an already-warm trigger response, the run is the
single trigger event followed by an immediate success. -/
theorem warmup_trigger_once_witness :
    countTriggers (wait_for_ready ("demo-model") true alwaysLoading 2 300 none 5).1 = 1
    ∧ wait_for_ready ("demo-model") true alwaysLoading 2 300 none 5
        = ([WarmupEvent.trigger ("demo-model")], some WarmupOutcome.ready)
    ∧ countChecks (wait_for_ready ("demo-model") true alwaysLoading 2 300 none 5).1 = 0 := by
  have h := warmup_trigger_once ("demo-model") true alwaysLoading 2 300 none 5
  exact ⟨h.1, (h.2 rfl).1, (h.2 rfl).2⟩

/-- C3: when the trigger reports not already warm, the first N status
checks are unhealthy, check N is healthy, and every deadline check up to
and including the one before check N passes, `wait_for_ready` succeeds
after exactly N+1 status checks and N sleeps of the poll interval. -/
theorem warmup_polls_until_healthy (model : String)
    (statusAt : Nat → ModelStatus) (interval maxWaitTime : ℚ)
    (timeout : Option ℚ) (fuel N : Nat)
    (hfuel : N < fuel)
    (hnh : ∀ j, j < N → statusIsHealthy (statusAt j) = false)
    (hh : statusIsHealthy (statusAt N) = true)
    (hT : ∀ k, k ≤ N → (k : ℚ) * interval < timeout.getD maxWaitTime) :
    wait_for_ready model false statusAt interval maxWaitTime timeout fuel
      = (WarmupEvent.trigger model :: pollSuccessEvents model interval N,
          some WarmupOutcome.ready)
    ∧ countChecks
        (wait_for_ready model false statusAt interval maxWaitTime timeout fuel).1
        = N + 1
    ∧ countSleeps
        (wait_for_ready model false statusAt interval maxWaitTime timeout fuel).1
        = N := by
  have hp := pollLoop_success model statusAt interval (timeout.getD maxWaitTime)
    N 0 fuel hfuel (by simpa using hnh) (by simpa using hh) (by simpa using hT)
  refine ⟨by simp [wait_for_ready, hp], ?_, ?_⟩
  · simp [wait_for_ready, hp, countChecks, countChecks_pollSuccessEvents]
  · simp [wait_for_ready, hp, countSleeps, countSleeps_pollSuccessEvents]

/-- C3 witness: two unhealthy checks, then a healthy one, well inside the
default 300-second deadline: three checks and two sleeps. -/
theorem warmup_polls_until_healthy_witness :
    wait_for_ready ("demo-model") false loadingThenHealthy 2 300 none 5
      = (WarmupEvent.trigger ("demo-model") :: pollSuccessEvents ("demo-model") 2 2,
          some WarmupOutcome.ready)
    ∧ countChecks (wait_for_ready ("demo-model") false loadingThenHealthy 2 300 none 5).1 = 3
    ∧ countSleeps (wait_for_ready ("demo-model") false loadingThenHealthy 2 300 none 5).1 = 2 :=
  warmup_polls_until_healthy ("demo-model") loadingThenHealthy 2 300 none 5 2
    (by omega) (by decide) (by decide)
    (by intro k hk; interval_cases k <;> norm_num)

/-- C10: a non-positive per-call timeout with a not-already-warm trigger
response raises the timeout (with zero waited seconds) before the very
first status check, after the one warmup trigger call. -/
theorem warmup_nonpositive_timeout (model : String)
    (statusAt : Nat → ModelStatus) (interval maxWaitTime : ℚ)
    (T : ℚ) (fuel : Nat) (hT : T ≤ 0) (hfuel : 0 < fuel) :
    wait_for_ready model false statusAt interval maxWaitTime (some T) fuel
      = ([WarmupEvent.trigger model], some (WarmupOutcome.timeout model 0))
    ∧ countChecks
        (wait_for_ready model false statusAt interval maxWaitTime (some T) fuel).1 = 0
    ∧ countTriggers
        (wait_for_ready model false statusAt interval maxWaitTime (some T) fuel).1 = 1 := by
  obtain ⟨f, rfl⟩ : ∃ f, fuel = f + 1 := ⟨fuel - 1, by omega⟩
  have hp : pollLoop model statusAt interval T (f + 1) 0
      = ([], some (WarmupOutcome.timeout model 0)) := by
    simp [pollLoop, hT]
  refine ⟨by simp [wait_for_ready, hp], ?_, ?_⟩
  · simp [wait_for_ready, hp, countChecks]
  · simp [wait_for_ready, hp, countTriggers]

/-- C10 witness: timeout 0 raises immediately with zero status checks and
one trigger call. -/
theorem warmup_nonpositive_timeout_witness :
    (0 : ℚ) ≤ 0
    ∧ wait_for_ready ("demo-model") false alwaysLoading 2 300 (some 0) 4
        = ([WarmupEvent.trigger ("demo-model")], some (WarmupOutcome.timeout ("demo-model") 0))
    ∧ countChecks (wait_for_ready ("demo-model") false alwaysLoading 2 300 (some 0) 4).1 = 0
    ∧ countTriggers (wait_for_ready ("demo-model") false alwaysLoading 2 300 (some 0) 4).1 = 1 :=
  ⟨le_refl 0, warmup_nonpositive_timeout ("demo-model") alwaysLoading 2 300 0 4
    (le_refl 0) (by omega)⟩

/-- C1 counterexample: with poll interval 2 and per-call timeout -5 against
a never-healthy model, `wait_for_ready` raises a timeout whose
`waited_seconds` is 0, and 0 exceeds the timeout -5 by 5 seconds, which is
more than the one poll interval the claim allows. -/
theorem warmup_negative_timeout_exceeds_bound_cex :
    (wait_for_ready ("demo-model") false alwaysLoading 2 300 (some (-5)) 3).2
        = some (WarmupOutcome.timeout ("demo-model") 0)
    ∧ ¬ ((0 : ℚ) ≤ -5 + 2) := by
  constructor
  · have h := warmup_nonpositive_timeout ("demo-model") alwaysLoading 2 300 (-5) 3
      (by norm_num) (by omega)
    simp [h.1]
  · norm_num

/-- C1 amended: for a positive poll interval, a not-already-warm trigger
response and a never-healthy model, `wait_for_ready` raises WarmupTimeout
carrying the model; its `waited_seconds` is at least the effective timeout
T, and at most `max T 0` plus one poll interval; the deadline check comes
before every status check, so every one of the K status checks issued
happens at an elapsed time strictly below T. -/
theorem warmup_timeout_bound (model : String) (statusAt : Nat → ModelStatus)
    (interval maxWaitTime : ℚ) (timeout : Option ℚ) (fuel : Nat)
    (hi : 0 < interval)
    (hH : ∀ k, statusIsHealthy (statusAt k) = false)
    (hfuel : ∃ k, k < fuel ∧ timeout.getD maxWaitTime ≤ (k : ℚ) * interval) :
    ∃ K : Nat,
      wait_for_ready model false statusAt interval maxWaitTime timeout fuel
        = (WarmupEvent.trigger model :: pollTimeoutEvents model interval K,
            some (WarmupOutcome.timeout model ((K : ℚ) * interval)))
      ∧ timeout.getD maxWaitTime ≤ (K : ℚ) * interval
      ∧ (K : ℚ) * interval ≤ max (timeout.getD maxWaitTime) 0 + interval
      ∧ countChecks
          (wait_for_ready model false statusAt interval maxWaitTime timeout fuel).1 = K
      ∧ ∀ j, j < K → (j : ℚ) * interval < timeout.getD maxWaitTime := by
  obtain ⟨k0, hk0f, hk0⟩ := hfuel
  have hex : ∃ k : Nat, timeout.getD maxWaitTime ≤ (k : ℚ) * interval := ⟨k0, hk0⟩
  set K := Nat.find hex with hKdef
  have hKspec : timeout.getD maxWaitTime ≤ (K : ℚ) * interval := Nat.find_spec hex
  have hKmin : ∀ j, j < K → (j : ℚ) * interval < timeout.getD maxWaitTime := by
    intro j hj
    exact not_le.mp (Nat.find_min hex hj)
  have hKf : K < fuel := lt_of_le_of_lt (Nat.find_min' hex hk0) hk0f
  have hp := pollLoop_timeout model statusAt interval (timeout.getD maxWaitTime) hH
    K 0 fuel hKf (by intro j hj; simpa using hKmin j hj) (by simpa using hKspec)
  refine ⟨K, by simp [wait_for_ready, hp], hKspec, ?_, ?_, hKmin⟩
  · rcases Nat.eq_zero_or_pos K with hK0 | hKpos
    · rw [hK0]
      have h1 : (0 : ℚ) ≤ max (timeout.getD maxWaitTime) 0 := le_max_right _ _
      push_cast
      linarith
    · obtain ⟨m, hm⟩ : ∃ m, K = m + 1 := ⟨K - 1, by omega⟩
      have hmlt := hKmin m (by omega)
      have hTmax : timeout.getD maxWaitTime ≤ max (timeout.getD maxWaitTime) 0 :=
        le_max_left _ _
      rw [hm]
      push_cast
      linarith
  · simp [wait_for_ready, hp, countChecks, countChecks_pollTimeoutEvents]

/-- C1 amended witness: timeout 5, poll interval 2, never-healthy model:
the run times out after some K checks with `waited_seconds = 2 K`, where
`5 ≤ 2 K ≤ max 5 0 + 2`. -/
theorem warmup_timeout_bound_witness :
    (0 : ℚ) < 2
    ∧ ∃ K : Nat,
        wait_for_ready ("demo-model") false alwaysLoading 2 300 (some 5) 10
          = (WarmupEvent.trigger ("demo-model") :: pollTimeoutEvents ("demo-model") 2 K,
              some (WarmupOutcome.timeout ("demo-model") ((K : ℚ) * 2)))
        ∧ (5 : ℚ) ≤ (K : ℚ) * 2
        ∧ (K : ℚ) * 2 ≤ max (5 : ℚ) 0 + 2
        ∧ countChecks
            (wait_for_ready ("demo-model") false alwaysLoading 2 300 (some 5) 10).1 = K
        ∧ ∀ j, j < K → (j : ℚ) * 2 < 5 :=
  ⟨by norm_num,
    warmup_timeout_bound ("demo-model") alwaysLoading 2 300 (some 5) 10
      (by norm_num) (fun _ => rfl) ⟨3, by norm_num⟩⟩

/-- The marker is not a prefix of the empty string. -/
theorem sseMarker_not_prefix_empty : sseMarker.isPrefixOf ("") = false := by decide

/-- Unfolding of the spec-side decoder output over the first line. -/
theorem sseEventsSpec_cons {J T : Type} (parse : String → Option J)
    (coerce : J → Option T) (chunk : String) (rest : List String) :
    sseEventsSpec parse coerce (chunk :: rest)
      = match dataPayload chunk with
        | none => sseEventsSpec parse coerce rest
        | some d =>
          if d = doneSentinel then []
          else
            match (parse d).bind coerce with
            | none => sseEventsSpec parse coerce rest
            | some t => t :: sseEventsSpec parse coerce rest := by
  cases hdp : dataPayload chunk with
  | none => simp [sseEventsSpec, List.filterMap_cons, hdp]
  | some d =>
    by_cases hdone : d = doneSentinel
    · simp [sseEventsSpec, List.filterMap_cons, hdp, hdone]
    · cases hpc : (parse d).bind coerce with
      | none => simp [sseEventsSpec, List.filterMap_cons, hdp, hdone, hpc]
      | some t => simp [sseEventsSpec, List.filterMap_cons, hdp, hdone, hpc]

/-- C4: the decoder yields, in arrival order, exactly the successfully
JSON-parsed and successfully coerced payloads of `data: `-marked lines
preceding the first `[DONE]` payload; the sentinel terminates the sequence
and is never yielded, and unmarked lines, JSON failures and coercion
failures contribute nothing and raise nothing. -/
theorem sse_events_match_spec {J T : Type} (parse : String → Option J)
    (coerce : J → Option T) (lines : List String) :
    sseEvents parse coerce lines = sseEventsSpec parse coerce lines := by
  induction lines with
  | nil => simp [sseEvents, sseEventsSpec]
  | cons chunk rest ih =>
    rw [sseEventsSpec_cons]
    by_cases hemp : pyStrip chunk = ""
    · have hdp : dataPayload chunk = none := by
        simp [dataPayload, hemp, sseMarker_not_prefix_empty]
      simp [sseEvents, hemp, hdp, ih]
    · by_cases hpre : sseMarker.isPrefixOf (pyStrip chunk)
      · have hdp : dataPayload chunk
            = some ((pyStrip chunk).drop sseMarker.length) := by
          simp [dataPayload, hpre]
        by_cases hdone : (pyStrip chunk).drop sseMarker.length = doneSentinel
        · simp [sseEvents, hemp, hpre, hdone, hdp]
        · cases hp : parse ((pyStrip chunk).drop sseMarker.length) with
          | none => simp [sseEvents, hemp, hpre, hdone, hdp, hp, ih]
          | some j =>
            cases hc : coerce j with
            | none => simp [sseEvents, hemp, hpre, hdone, hdp, hp, hc, ih]
            | some t => simp [sseEvents, hemp, hpre, hdone, hdp, hp, hc, ih]
      · have hdp : dataPayload chunk = none := by simp [dataPayload, hpre]
        simp [sseEvents, hemp, hpre, hdp, ih]

/-- Iterating a stream whose cached generator has `xs` left yields the
first `n` of `xs`. -/
theorem streamNexts_cached {J T : Type} (parse : String → Option J)
    (coerce : J → Option T) :
    ∀ (n : Nat) (xs : List T) (lines : List String),
      streamNexts parse coerce n { lines := lines, it := some xs } = xs.take n := by
  intro n
  induction n with
  | zero => intro xs lines; simp [streamNexts]
  | succ n ih =>
    intro xs lines
    cases xs with
    | nil => simp [streamNexts, streamNext, streamRemaining]
    | cons x xs => simp [streamNexts, streamNext, streamRemaining, ih]

/-- C9: over any number of `next()` calls, a stream object produces exactly
a prefix of the finite decoded event list — the sequence is finite and is
never restarted by renewed iteration — and once the generator is exhausted
every further call produces nothing and leaves the state unchanged. -/
theorem sse_stream_finite_nonrestartable {J T : Type}
    (parse : String → Option J) (coerce : J → Option T)
    (lines : List String) (n : Nat) :
    streamNexts parse coerce n { lines := lines, it := none }
      = (sseEvents parse coerce lines).take n
    ∧ streamNext parse coerce ({ lines := lines, it := some [] } : StreamObj T)
      = (none, { lines := lines, it := some [] }) := by
  refine ⟨?_, rfl⟩
  cases n with
  | zero => simp [streamNexts]
  | succ n =>
    cases hev : sseEvents parse coerce lines with
    | nil => simp [streamNexts, streamNext, streamRemaining, hev]
    | cons x xs =>
      simp [streamNexts, streamNext, streamRemaining, hev, streamNexts_cached]

/-! ## Streaming-transcription theorems -/

/-- Frames transmitted by a synchronous session after a sequence of
`send(audio)` calls: whatever was already on the wire, then the audio
frames in call order. -/
theorem syncSession_run_sent :
    ∀ (chunks : List (List Nat)) (fs : List WSFrame),
      (SyncSession.run { sent := fs } chunks).sent
        = fs ++ chunks.map WSFrame.binary := by
  intro chunks
  induction chunks with
  | nil => intro fs; simp [SyncSession.run]
  | cons c cs ih =>
    intro fs
    have h1 : SyncSession.run { sent := fs } (c :: cs)
        = SyncSession.run { sent := fs ++ [WSFrame.binary c] } cs := rfl
    rw [h1, ih]
    simp

/-- Frames transmitted by an asynchronous session: exactly the frames of
the caller-invoked operations, in the caller's order. -/
theorem asyncSession_run_sent (cfg : String) :
    ∀ (ops : List AsyncOp) (fs : List WSFrame),
      (AsyncSession.run { configJson := cfg, sent := fs } ops).sent
        = fs ++ ops.map (AsyncOp.frameOf cfg) := by
  intro ops
  induction ops with
  | nil => intro fs; simp [AsyncSession.run]
  | cons op rest ih =>
    intro fs
    cases op with
    | sendConfig =>
      have h1 : AsyncSession.run { configJson := cfg, sent := fs }
            (AsyncOp.sendConfig :: rest)
          = AsyncSession.run { configJson := cfg, sent := fs ++ [WSFrame.text cfg] }
              rest := rfl
      rw [h1, ih]
      simp [AsyncOp.frameOf]
    | sendChunk pcm =>
      have h1 : AsyncSession.run { configJson := cfg, sent := fs }
            (AsyncOp.sendChunk pcm :: rest)
          = AsyncSession.run { configJson := cfg, sent := fs ++ [WSFrame.binary pcm] }
              rest := rfl
      rw [h1, ih]
      simp [AsyncOp.frameOf]

/-- C5 counterexample: an asynchronous session accepts a `send(audio)`
before `_send_config`, putting an audio frame on the wire ahead of the
configuration frame — nothing in the session component prevents it. -/
theorem async_config_not_enforced_cex :
    (AsyncSession.run (AsyncSession.init ("cfg"))
        [AsyncOp.sendChunk [0], AsyncOp.sendConfig]).sent
      = [WSFrame.binary [0], WSFrame.text ("cfg")] := rfl

/-- C5 amended: the synchronous session's constructor itself transmits the
JSON configuration as the first frame, before the bytes of any send(audio)
call, so the ordering is component-enforced there; the asynchronous session
transmits exactly the frames of the caller's operations in the caller's
order, so its configuration-first ordering holds only when the caller
invokes `_send_config` before any send. -/
theorem streaming_transcription_config_first (cfg : String)
    (chunks : List (List Nat)) (ops : List AsyncOp) :
    (SyncSession.run (SyncSession.init cfg) chunks).sent
      = WSFrame.text cfg :: chunks.map WSFrame.binary
    ∧ (AsyncSession.run (AsyncSession.init cfg) ops).sent
      = ops.map (AsyncOp.frameOf cfg)
    ∧ (AsyncSession.run (AsyncSession.init cfg) (AsyncOp.sendConfig :: ops)).sent
      = WSFrame.text cfg :: ops.map (AsyncOp.frameOf cfg) := by
  refine ⟨?_, ?_, ?_⟩
  · have h := syncSession_run_sent chunks [WSFrame.text cfg]
    simpa [SyncSession.init] using h
  · have h := asyncSession_run_sent cfg ops []
    simpa [AsyncSession.init] using h
  · have h := asyncSession_run_sent cfg (AsyncOp.sendConfig :: ops) []
    simpa [AsyncSession.init, AsyncOp.frameOf] using h

/-- Iterating the session is exactly the `__iter__` loop around `recv`: a
yielded frame continues the iteration, and any `recv` exception ends it
with no failure reaching the consumer. -/
theorem iterFrames_eq_recv_loop {F : Type} (jparse : String → Option JObj)
    (validate : JObj → Option F) (incoming : List String) :
    iterFrames jparse validate incoming
      = match recv jparse validate incoming with
        | Except.ok (f, rest) => f :: iterFrames jparse validate rest
        | Except.error _ => [] := by
  cases incoming with
  | nil => simp [iterFrames, recv]
  | cons raw rest =>
    cases hp : jparse raw with
    | none => simp [iterFrames, recv, hp]
    | some data =>
      cases he : List.lookup ("error") data with
      | some msg => simp [iterFrames, recv, hp, he]
      | none =>
        cases hv : validate data with
        | none => simp [iterFrames, recv, hp, he, hv]
        | some f => simp [iterFrames, recv, hp, he, hv]

/-- A json.loads-style parser for the concrete frames the session theorems
evaluate: an error frame carrying message `X` and a well-formed frame. -/
def demoParse : String → Option JObj := fun s =>
  if s = "errframe" then some [("error", "X")]
  else if s = "okframe" then some [("segments", "hello")] else none

/-- A model_validate-style coercion for the concrete frames: succeeds
exactly on objects carrying a `segments` field. -/
def demoValidate : JObj → Option String := fun data =>
  List.lookup ("segments") data

/-- C6 counterexample: on the inbound frames `errframe, okframe`, a direct
`recv` surfaces the APIError carrying the server message, but iterating the
session yields an empty sequence — the error ends iteration silently and
never reaches the iterating consumer, and the well-formed frame behind it
is dropped too; on `okframe` alone the iterator does yield the frame, so
the empty output is the swallowed error, not vacuity. -/
theorem ws_iter_swallows_error_cex :
    recv demoParse demoValidate ["errframe", "okframe"]
      = Except.error (RecvError.apiErr ("X"))
    ∧ iterFrames demoParse demoValidate ["errframe", "okframe"] = ([] : List String)
    ∧ iterFrames demoParse demoValidate ["okframe"] = ["hello"] := by
  refine ⟨rfl, rfl, rfl⟩

/-- C6 amended: a received frame whose JSON carries an `error` field makes
`recv` fail with the APIError carrying the server's message instead of
producing a frame; but when frames are consumed by iterating the session,
that failure — like every exception in the receive loop — silently
terminates the sequence: the iterating consumer sees no further frame and
no failure. -/
theorem ws_error_frame_fails_recv_but_iter_ends_silently {F : Type}
    (jparse : String → Option JObj) (validate : JObj → Option F)
    (raw : String) (rest : List String) (data : JObj) (msg : String)
    (hp : jparse raw = some data)
    (he : List.lookup ("error") data = some msg) :
    recv jparse validate (raw :: rest) = Except.error (RecvError.apiErr msg)
    ∧ iterFrames jparse validate (raw :: rest) = ([] : List F) := by
  constructor
  · simp [recv, hp, he]
  · simp [iterFrames, hp, he]

/-- C6 amended witness: the error frame with message `X` at the head of the
stream makes `recv` fail with that message while iteration yields nothing. -/
theorem ws_error_frame_iter_witness :
    demoParse ("errframe") = some [("error", "X")]
    ∧ recv demoParse demoValidate ["errframe"] = Except.error (RecvError.apiErr ("X"))
    ∧ iterFrames demoParse demoValidate ["errframe"] = ([] : List String) := by
  have h := ws_error_frame_fails_recv_but_iter_ends_silently demoParse demoValidate
    "errframe" [] [("error", "X")] "X" rfl rfl
  exact ⟨rfl, h.1, h.2⟩

/-- C7: a received frame whose JSON object carries key `error` with value
X makes a direct `recv` fail with the APIError whose message is exactly X
(so the message contains X) and return no frame, while a frame without an
`error` field is coerced and returned as the transcription frame. -/
theorem recv_error_surfaced_success_returned {F : Type}
    (jparse : String → Option JObj) (validate : JObj → Option F)
    (raw : String) (rest : List String) (data : JObj)
    (hp : jparse raw = some data) :
    (∀ msg, List.lookup ("error") data = some msg →
        recv jparse validate (raw :: rest) = Except.error (RecvError.apiErr msg))
    ∧ (List.lookup ("error") data = none →
        ∀ frame, validate data = some frame →
          recv jparse validate (raw :: rest) = Except.ok (frame, rest)) := by
  constructor
  · intro msg he
    simp [recv, hp, he]
  · intro he frame hv
    simp [recv, hp, he, hv]

/-- C7 witness: the error frame fails `recv` with message `X`; the
well-formed frame is validated and returned. -/
theorem recv_error_surfaced_witness :
    recv demoParse demoValidate ["errframe"] = Except.error (RecvError.apiErr ("X"))
    ∧ recv demoParse demoValidate ["okframe"] = Except.ok ("hello", []) := by
  have h1 := recv_error_surfaced_success_returned demoParse demoValidate
    "errframe" [] [("error", "X")] rfl
  have h2 := recv_error_surfaced_success_returned demoParse demoValidate
    "okframe" [] [("segments", "hello")] rfl
  exact ⟨h1.1 ("X") rfl, h2.2 rfl ("hello") rfl⟩

/-! ## HTTP retry theorems -/

/-- Running the retry loop from attempt `k` when every attempt through the
budget's last attempt `n` is a retryable failure: one backoff sleep of
`2 ^ attempt` seconds per remaining retry, then the last attempt's error. -/
theorem requestFrom_retryable (att : Nat → AttemptOutcome) (n : Nat) :
    ∀ (fuel k : Nat), k ≤ n → n - k < fuel →
      (∀ i, k ≤ i → i ≤ n → isRetryable (att i) = true) →
      requestFrom att n k fuel
        = ((List.range' k (n - k)).map (fun a => (2 : ℚ) ^ a),
            surfacedOf (att n)) := by
  intro fuel
  induction fuel with
  | zero => intro k _ hf; omega
  | succ f ih =>
    intro k hk hf hr
    by_cases hkn : k = n
    · subst hkn
      have hrk := hr k (le_refl k) (le_refl k)
      cases hA : att k with
      | success => rw [hA] at hrk; simp [isRetryable] at hrk
      | badStatus code => rw [hA] at hrk; simp [isRetryable] at hrk
      | httpTimeout =>
        simp [requestFrom, hA, surfacedOf, Nat.sub_self]
      | connectFailure =>
        simp [requestFrom, hA, surfacedOf, Nat.sub_self]
    · have hklt : k < n := lt_of_le_of_ne hk hkn
      have hrk := hr k (le_refl k) (le_of_lt hklt)
      have hrest := ih (k + 1) hklt (by omega)
        (fun i h1 h2 => hr i (by omega) h2)
      have hrange : n - k = (n - (k + 1)) + 1 := by omega
      cases hA : att k with
      | success => rw [hA] at hrk; simp [isRetryable] at hrk
      | badStatus code => rw [hA] at hrk; simp [isRetryable] at hrk
      | httpTimeout =>
        simp [requestFrom, hA, hklt, hrest, hrange, List.range'_succ]
      | connectFailure =>
        simp [requestFrom, hA, hklt, hrest, hrange, List.range'_succ]

/-- Running the retry loop from attempt `k` when attempts before `j` are
retryable failures and attempt `j` returns a non-2xx response: the status
error is surfaced at attempt `j`, after only the earlier backoff sleeps. -/
theorem requestFrom_badStatus (att : Nat → AttemptOutcome) (n : Nat)
    (j code : Nat) (hjn : j ≤ n)
    (hbad : att j = AttemptOutcome.badStatus code) :
    ∀ (fuel k : Nat), k ≤ j → j - k < fuel →
      (∀ i, k ≤ i → i < j → isRetryable (att i) = true) →
      requestFrom att n k fuel
        = ((List.range' k (j - k)).map (fun a => (2 : ℚ) ^ a),
            RequestResult.apiStatusErr code) := by
  intro fuel
  induction fuel with
  | zero => intro k _ hf; omega
  | succ f ih =>
    intro k hk hf hr
    by_cases hkj : k = j
    · subst hkj
      simp [requestFrom, hbad, Nat.sub_self]
    · have hklt : k < j := lt_of_le_of_ne hk hkj
      have hrk := hr k (le_refl k) hklt
      have hrest := ih (k + 1) hklt (by omega)
        (fun i h1 h2 => hr i (by omega) h2)
      have hrange : j - k = (j - (k + 1)) + 1 := by omega
      have hkn : k < n := lt_of_lt_of_le hklt hjn
      cases hA : att k with
      | success => rw [hA] at hrk; simp [isRetryable] at hrk
      | badStatus code2 => rw [hA] at hrk; simp [isRetryable] at hrk
      | httpTimeout =>
        simp [requestFrom, hA, hkn, hrest, hrange, List.range'_succ]
      | connectFailure =>
        simp [requestFrom, hA, hkn, hrest, hrange, List.range'_succ]

/-- C8: when every attempt fails with a connection or timeout failure, the
request is retried through the whole `max_retries` budget with a backoff
sleep of `2 ^ attempt` seconds between attempts and then surfaced as the
corresponding connection/timeout error; a non-2xx response is never
retried — it is surfaced as a status error on the attempt that received
it, with only the backoff sleeps of the earlier failed attempts. -/
theorem http_request_retry_policy (att : Nat → AttemptOutcome) (n : Nat) :
    ((∀ i, i ≤ n → isRetryable (att i) = true) →
      HTTPClient.request att n
        = ((List.range n).map (fun a => (2 : ℚ) ^ a), surfacedOf (att n)))
    ∧ (∀ j code, j ≤ n →
        (∀ i, i < j → isRetryable (att i) = true) →
        att j = AttemptOutcome.badStatus code →
        HTTPClient.request att n
          = ((List.range j).map (fun a => (2 : ℚ) ^ a),
              RequestResult.apiStatusErr code)) := by
  constructor
  · intro hr
    have h := requestFrom_retryable att n (n + 1) 0 (Nat.zero_le n) (by omega)
      (fun i _ h2 => hr i h2)
    simpa [HTTPClient.request, List.range_eq_range'] using h
  · intro j code hjn hr hbad
    have h := requestFrom_badStatus att n j code hjn hbad (n + 1) 0
      (Nat.zero_le j) (by omega) (fun i _ h2 => hr i h2)
    simpa [HTTPClient.request, List.range_eq_range'] using h

/-- Attempt outcomes for the C8 witness: a timeout, then connection
failures on every later attempt. -/
def demoAttempts : Nat → AttemptOutcome := fun i =>
  if i = 0 then AttemptOutcome.httpTimeout else AttemptOutcome.connectFailure

/-- Attempt outcomes for the C8 witness: a timeout, then a 404 response. -/
def demoAttemptsBad : Nat → AttemptOutcome := fun i =>
  if i = 0 then AttemptOutcome.httpTimeout else AttemptOutcome.badStatus 404

/-- C8 witness: with `max_retries = 2` and all-retryable failures, the
request sleeps 1 then 2 seconds and surfaces the connection error; with a
404 on attempt 1, it sleeps once and surfaces the status error unretried. -/
theorem http_request_retry_policy_witness :
    HTTPClient.request demoAttempts 2 = ([1, 2], RequestResult.apiConnectionErr)
    ∧ HTTPClient.request demoAttemptsBad 2 = ([1], RequestResult.apiStatusErr 404) := by
  have h1 := (http_request_retry_policy demoAttempts 2).1 (by decide)
  have h2 := (http_request_retry_policy demoAttemptsBad 2).2 1 404 (by omega)
    (by decide) (by decide)
  constructor
  · rw [h1]; decide
  · rw [h2]; decide

end Kafeido
